import Mathlib

/-!
Verification of the Brightbox cluster-autoscaler cloud-provider adapter.

The definitions below are a shallow embedding, translated from the Go
source files of the repository:

* `brightbox_node_group.go` — the node-group scaling operations
  (`IncreaseSize`, `DeleteNodes`, `DecreaseTargetSize`,
  `makeNodeGroupFromApiDetails`, `createServers`,
  `deleteServerFromGroup`, `isMissing`);
* `brightbox_cloud_provider.go` — the discovery cycle (`Refresh`,
  `NodeGroupForNode`, `extractGroupDefaults`, `checkForChange`,
  `checkZoneForChange`, `fetchDefaultGroup`, `defaultServerName`).

The external Brightbox API client (`k8ssdk.Cloud`) is an eventually
consistent remote service; it is modelled as an oracle: every provider
call is time-stamped with a call counter, and the oracle maps the
counter to the provider's response for that call.  Each operation also
records the trace of provider calls it issues.
-/

namespace Brightbox

/-- Go `strconv.Atoi` on base-10 input: an optional single leading sign
followed by one or more ASCII digits; anything else fails.
(64-bit overflow, which Go's `Atoi` also rejects, is not reachable from
any input considered here and is not modelled.) -/
def strconvAtoi (s : String) : Option Int :=
  let signDigits : Int × List Char :=
    match s.data with
    | '+' :: rest => (1, rest)
    | '-' :: rest => (-1, rest)
    | l => (1, l)
  match signDigits with
  | (sign, digits) =>
    if digits = [] then none
    else if digits.all Char.isDigit then
      some (sign * (digits.foldl (fun n c => n * 10 + ((c.toNat : Int) - ('0'.toNat : Int))) 0))
    else none

/-- Go `strings.Split` restricted to a single-character separator (the
only use in this code base is splitting on ":"), on character lists:
`[]` yields `[[]]`, mirroring `strings.Split("", ":") = [""]`. -/
def goSplitChars (sep : Char) : List Char → List (List Char)
  | [] => [[]]
  | c :: rest =>
    if c = sep then
      [] :: goSplitChars sep rest
    else
      match goSplitChars sep rest with
      | [] => [[c]]
      | h :: t => (c :: h) :: t

/-- Go `strings.Split(s, sep)` for a single-character separator. -/
def goSplit (s : String) (sep : Char) : List String :=
  (goSplitChars sep s.data).map String.mk

/-- Struct `brightbox.ServerOptions` — the launch template stored on a node
group (only the fields the adapter sets). -/
structure ServerOptions where
  image : String
  name : String
  serverType : String
  zone : String
  userData : String
  serverGroups : List String
  deriving Repr, DecidableEq

/-- Struct `brightboxNodeGroup` — id, bounds and launch template.  The embedded
`*k8ssdk.Cloud` client is factored out: provider access is passed to each
operation as an oracle instead. -/
structure BrightboxNodeGroup where
  id : String
  minSize : Int
  maxSize : Int
  serverOptions : ServerOptions
  deriving Repr, DecidableEq

/-- Constructor `makeNodeGroupFromApiDetails` (node-group source file): build the
node group, then split the description on ":"; when there are exactly
two fields, each field that `Atoi` parses overwrites the corresponding
bound independently. -/
def makeNodeGroupFromApiDetails (id name description : String)
    (defaultSize : Int)
    (defaultServerTypeId defaultImageId defaultZoneId
     defaultMainGroupId defaultUserData : String) : BrightboxNodeGroup :=
  let options : ServerOptions :=
    { image := defaultImageId
      name := name
      serverType := defaultServerTypeId
      zone := defaultZoneId
      userData := defaultUserData
      serverGroups := [defaultMainGroupId, id] }
  let result : BrightboxNodeGroup :=
    { id := id
      minSize := defaultSize
      maxSize := defaultSize
      serverOptions := options }
  let sizes := goSplit description ':'
  if sizes.length = 2 then
    let result :=
      match strconvAtoi (sizes.get! 0) with
      | some value => { result with minSize := value }
      | none => result
    match strconvAtoi (sizes.get! 1) with
    | some value => { result with maxSize := value }
    | none => result
  else
    result

/-- The Descriptor Parser contract exactly as the specification words it:
parse exactly two colon-separated integers as (min, max); the pair becomes
the bounds only when parsing succeeds and min < max; in every other case
both bounds fall back to the group's current member count. -/
def descriptorBoundsSpec (description : String) (size : Int) : Int × Int :=
  match goSplit description ':' with
  | [a, b] =>
    match strconvAtoi a, strconvAtoi b with
    | some mn, some mx => if mn < mx then (mn, mx) else (size, size)
    | _, _ => (size, size)
  | _ => (size, size)

/-- The Descriptor Parser as the code actually behaves (amended claim):
with exactly two colon-separated fields, each field that parses as an
integer independently sets its bound, a non-parsing field leaves that
bound at the default; any other field count leaves both at the default;
no min < max validation is performed. -/
def descriptorBoundsAmended (description : String) (defaultSize : Int) : Int × Int :=
  match goSplit description ':' with
  | [a, b] => ((strconvAtoi a).getD defaultSize, (strconvAtoi b).getD defaultSize)
  | _ => (defaultSize, defaultSize)

/-! ## Consensus extraction (cloud-provider source file) -/
/-- Status constants from the `gobrightbox/status` package. -/
def statusAvailable : String := "available"

/-- Status constant `status.Deprecated`. -/
def statusDeprecated : String := "deprecated"

/-- Resource reference with a lifecycle status (`brightbox.Image`,
`brightbox.ServerType` — only the `Id` and `Status` fields are read). -/
structure ResourceRef where
  id : String
  status : String
  deriving Repr, DecidableEq

/-- Zone reference (`brightbox.Zone` — only `Id` is read). -/
structure ZoneRef where
  id : String
  deriving Repr, DecidableEq

/-- Struct `brightbox.Server`, restricted to the fields this adapter reads:
lifecycle data for deletion checks and the attribute triple for
consensus extraction.  `serverGroups` keeps only the group ids, the one
field the code compares. -/
structure Server where
  id : String
  status : String
  deletedAt : Option Unit
  serverGroups : List String
  image : ResourceRef
  serverType : ResourceRef
  zone : ZoneRef
  deriving Repr, DecidableEq

/-- Struct `idWithStatus` (cloud-provider source file). -/
structure IdWithStatus where
  id : String
  status : String
  deriving Repr, DecidableEq

/-- Function `checkForChange`: consensus step for one attribute.  An equal value
is kept; an "available" value supersedes an empty or "deprecated" one; a
"deprecated" value is only accepted into an empty slot; any other status
is ignored.  `errorMessage` is only logged by the Go code and is kept
for signature fidelity. -/
def checkForChange (current newDetails : IdWithStatus) (errorMessage : String) :
    IdWithStatus :=
  if newDetails = current then current
  else if newDetails.status = statusAvailable then
    if current.id = "" ∨ current.status = statusDeprecated then newDetails else current
  else if newDetails.status = statusDeprecated then
    if current.id = "" then newDetails else current
  else current

/-- Function `checkZoneForChange`: zone consensus step.  A repeated or first zone
is adopted; a differing zone resolves the group to "zone balanced",
encoded as the empty string. -/
def checkZoneForChange (zoneID newZoneID sentinel : String) : String :=
  if zoneID = newZoneID ∨ zoneID = sentinel then newZoneID else ""

/-- Sentinel initial value for the zone scan in `extractGroupDefaults`. -/
def zoneSentinel : String := "dummyValue"

/-- Loop body of `extractGroupDefaults`: fetch each member from the
provider (`fetch` is the oracle for `GetServer` during this discovery
cycle) and fold the three consensus states; a fetch failure aborts with
that error. -/
def extractLoop (fetch : String → Except String Server) :
    List String → IdWithStatus → IdWithStatus → String →
    Except String (IdWithStatus × IdWithStatus × String)
  | [], serverType, image, zoneID => .ok (serverType, image, zoneID)
  | sid :: rest, serverType, image, zoneID =>
    match fetch sid with
    | .error e => .error e
    | .ok server =>
      extractLoop fetch rest
        (checkForChange serverType ⟨server.serverType.id, server.serverType.status⟩
          "Group has multiple ServerType Ids")
        (checkForChange image ⟨server.image.id, server.image.status⟩
          "Group has multiple Image Ids")
        (checkZoneForChange zoneID server.zone.id zoneSentinel)

/-- Function `extractGroupDefaults`: derive the (serverType, image, zone) triple
for a group from its member list, or fail when a member lookup fails or
when type, image or zone remain undetermined after the scan.  (The Go
code folds `image` first in each iteration; the three folds are
independent, so the order does not matter.) -/
def extractGroupDefaults (fetch : String → Except String Server)
    (servers : List String) : Except String (String × String × String) :=
  match extractLoop fetch servers ⟨"", ""⟩ ⟨"", ""⟩ zoneSentinel with
  | .error e => .error e
  | .ok (serverType, image, zoneID) =>
    if serverType.id = "" then .error "Unable to determine Server Type details from Group"
    else if image.id = "" then .error "Unable to determine Image details from Group"
    else if zoneID = zoneSentinel then .error "Unable to determine Zone details from Group"
    else .ok (serverType.id, image.id, zoneID)

/-- A provenance status that the consensus step accepts into a slot:
"available" or "deprecated"; every other status is ignored by
`checkForChange`. -/
def goodStatus (s : String) : Prop :=
  s = statusAvailable ∨ s = statusDeprecated

instance (s : String) : Decidable (goodStatus s) := by
  unfold goodStatus; infer_instance

/-! ## Discovery cycle (cloud-provider source file) -/
/-- Go `strings.HasSuffix`, via character lists. -/
def goHasSuffix (s sfx : String) : Bool :=
  List.isSuffixOf sfx.data s.data

/-- Struct `brightbox.ServerGroup`, restricted to the fields `Refresh` reads:
id, name, free-text description and the ids of the member servers. -/
structure ServerGroup where
  id : String
  name : String
  description : String
  servers : List String
  deriving Repr, DecidableEq

/-- Modelled from the spec: `getSizesFromDescription` is called by
`Refresh` but is not among the provided source files.  Per the
Descriptor Parser contract (spec section 4.1): attempt to parse exactly
two colon-separated integers as (min, max); when parsing succeeds and
min < max those are the bounds, otherwise both collapse to a degenerate
equal pair.  The caller returns the pair as (maxSize, minSize) and only
compares the two components for equality, so the degenerate value
itself is irrelevant; 0 is used here. -/
def getSizesFromDescription (description : String) : Int × Int :=
  match goSplit description ':' with
  | [a, b] =>
    match strconvAtoi a, strconvAtoi b with
    | some mn, some mx => if mn < mx then (mx, mn) else (0, 0)
    | _, _ => (0, 0)
  | _ => (0, 0)

/-- Function `defaultServerName`: server-name stem given to new instances. -/
def defaultServerName (name : String) : String :=
  "auto." ++ name

/-- Function `fetchDefaultGroup`: id of the first group whose name equals the
cluster name, or "" when there is none. -/
def fetchDefaultGroup : List ServerGroup → String → String
  | [], _ => ""
  | group :: rest, clusterName =>
    if group.name = clusterName then group.id
    else fetchDefaultGroup rest clusterName

/-- Provider responses for one discovery cycle: the group listing and
the per-server lookup (the provider is not re-read within a cycle).
`userData` is the boot payload that `Refresh` obtains from
`defaultUserData` applied to the two environment variables; its
rendering (shell-script templating plus base64) is value-irrelevant to
every claim and it is passed in here already rendered. -/
structure DiscoveryEnv where
  getServerGroups : Except String (List ServerGroup)
  getServer : String → Except String Server
  userData : String

/-- Loop body of `Refresh`: Go's `switch` skips groups whose name lacks
the cluster suffix, that have no members, or whose parsed bounds are
degenerate; for the remaining (eligible) groups a consensus-extraction
failure makes `Refresh` return that error, otherwise the node group is
appended and its members recorded in the membership index (newest entry
first, mirroring Go map overwrite on re-assignment). -/
def refreshLoop (env : DiscoveryEnv) (clusterSuffix defaultGroup : String) :
    List ServerGroup → List BrightboxNodeGroup → List (String × String) →
    Except String (List BrightboxNodeGroup × List (String × String))
  | [], nodeGroups, nodeMap => .ok (nodeGroups, nodeMap)
  | group :: rest, nodeGroups, nodeMap =>
    let sizes := getSizesFromDescription group.description
    if goHasSuffix group.name clusterSuffix = false then
      refreshLoop env clusterSuffix defaultGroup rest nodeGroups nodeMap
    else if group.servers.length < 1 then
      refreshLoop env clusterSuffix defaultGroup rest nodeGroups nodeMap
    else if sizes.1 = sizes.2 then
      refreshLoop env clusterSuffix defaultGroup rest nodeGroups nodeMap
    else
      match extractGroupDefaults env.getServer group.servers with
      | .error e => .error e
      | .ok (groupType, groupImage, groupZone) =>
        let newNodeGroup := makeNodeGroupFromApiDetails group.id
          (defaultServerName group.name) group.description
          (group.servers.length : Int) groupType groupImage groupZone
          defaultGroup env.userData
        refreshLoop env clusterSuffix defaultGroup rest
          (nodeGroups ++ [newNodeGroup])
          (group.servers.foldl (fun m sid => (sid, group.id) :: m) nodeMap)

/-- Function `Refresh`: list all provider groups (a listing failure aborts the
cycle), locate the default parent group, then build the new node-group
set and membership index.  (`Refresh` calls the node-group constructor
under the name `makeNodeGroupFromAPIDetails`; it is the same 10-argument
constructor embedded above as `makeNodeGroupFromApiDetails`.) -/
def refresh (clusterName : String) (env : DiscoveryEnv) :
    Except String (List BrightboxNodeGroup × List (String × String)) :=
  match env.getServerGroups with
  | .error e => .error e
  | .ok groups =>
    let clusterSuffix := "." ++ clusterName
    let defaultGroup := fetchDefaultGroup groups clusterName
    refreshLoop env clusterSuffix defaultGroup groups [] []

/-- Eligibility of a provider group in the `Refresh` switch: the name
carries the cluster suffix, the group has at least one member, and the
parsed bounds are not degenerate. -/
def eligibleGroup (clusterSuffix : String) (group : ServerGroup) : Prop :=
  goHasSuffix group.name clusterSuffix = true ∧
  1 ≤ group.servers.length ∧
  (getSizesFromDescription group.description).1 ≠
    (getSizesFromDescription group.description).2

instance (clusterSuffix : String) (group : ServerGroup) :
    Decidable (eligibleGroup clusterSuffix group) := by
  unfold eligibleGroup; infer_instance

/-- Go map lookup on the association-list membership index (newest
entry first). -/
def mapLookup : List (String × String) → String → Option String
  | [], _ => none
  | (k, v) :: rest, key => if k = key then some v else mapLookup rest key

/-- Function `findNodeGroup`: linear scan of the stored node groups by id. -/
def findNodeGroup : List BrightboxNodeGroup → String → Option BrightboxNodeGroup
  | [], _ => none
  | nodeGroup :: rest, groupID =>
    if nodeGroup.id = groupID then some nodeGroup
    else findNodeGroup rest groupID

/-- Function `NodeGroupForNode`: look the node's server id up in the membership
index; a hit resolves through `findNodeGroup` with no error, a miss
returns neither a group nor an error.  (The result pair mirrors Go's
`(cloudprovider.NodeGroup, error)`.) -/
def nodeGroupForNode (nodeGroups : List BrightboxNodeGroup)
    (nodeMap : List (String × String)) (serverID : String) :
    Option BrightboxNodeGroup × Option String :=
  match mapLookup nodeMap serverID with
  | some groupID => (findNodeGroup nodeGroups groupID, none)
  | none => (none, none)

/-! ## Node-group operations (node-group source file)

The provider is eventually consistent: successive calls may observe
different states.  `CloudEnv` is the response oracle — each provider
call is stamped with a running call counter and the oracle maps the
counter to that call's response.  Every operation returns its result,
the next counter value, and the list of provider calls it issued. -/
/-- Provider calls issued by the node-group operations. -/
inductive ProviderCall
  | getGroup (groupID : String)
  | getServer (serverID : String)
  | createServer
  | destroyServer (serverID : String)
  deriving Repr, DecidableEq

/-- Response oracle for the provider during node-group operations.
`groupRes t` answers the `GetServerGroup` call issued at counter `t`
(all such calls in the node-group operations pass the group's own id),
and similarly for the other calls. -/
structure CloudEnv where
  groupRes : Nat → Except String ServerGroup
  serverRes : String → Nat → Except String Server
  createRes : Nat → Except String Unit
  destroyRes : String → Nat → Except String Unit

/-- Method `TargetSize`: one `GetServerGroup` round trip; the size is the
length of the group's member list. -/
def targetSize (ng : BrightboxNodeGroup) (env : CloudEnv) (t : Nat) :
    Except String Nat × Nat × List ProviderCall :=
  match env.groupRes t with
  | .error e => (.error e, t + 1, [.getGroup ng.id])
  | .ok group => (.ok group.servers.length, t + 1, [.getGroup ng.id])

/-- Method `CurrentSize`: the implementation is synchronous, so it simply calls
`TargetSize` (a fresh provider round trip, not a cached value). -/
def currentSize (ng : BrightboxNodeGroup) (env : CloudEnv) (t : Nat) :
    Except String Nat × Nat × List ProviderCall :=
  targetSize ng env t

/-- Function `createServers`: issue `amount` sequential `CreateServer` calls,
aborting on the first failure. -/
def createServers (env : CloudEnv) (t : Nat) :
    Nat → Except String Unit × Nat × List ProviderCall
  | 0 => (.ok (), t, [])
  | amount + 1 =>
    match env.createRes t with
    | .error e => (.error e, t + 1, [.createServer])
    | .ok _ =>
      match createServers env (t + 1) amount with
      | (r, t', calls) => (r, t', .createServer :: calls)

/-- Number of condition evaluations `wait.Poll(checkInterval,
checkTimeout, ...)` can make: checkTimeout / checkInterval = 30s / 1s. -/
def pollAttempts : Nat := 30

/-- Function `wait.Poll` (k8s apimachinery): run the condition up to `fuel`
times; a condition error propagates immediately, `true` succeeds, and
exhausting the budget yields the timeout error. -/
def waitPoll (cond : Nat → Except String Bool × Nat × List ProviderCall) :
    Nat → Nat → Except String Unit × Nat × List ProviderCall
  | 0, t => (.error "timed out waiting for the condition", t, [])
  | fuel + 1, t =>
    match cond t with
    | (.error e, t', calls) => (.error e, t', calls)
    | (.ok true, t', calls) => (.ok (), t', calls)
    | (.ok false, t', calls) =>
      match waitPoll cond fuel t' with
      | (r, t'', calls2) => (r, t'', calls ++ calls2)

/-- The convergence condition polled by `IncreaseSize`: re-read the
target size; on success report whether it has reached the desired size,
on failure report the error (Go returns `(err == nil && size >=
desiredSize, err)`, and `wait.Poll` checks the error first). -/
def sizePollCond (ng : BrightboxNodeGroup) (env : CloudEnv) (desiredSize : Int)
    (t : Nat) : Except String Bool × Nat × List ProviderCall :=
  match targetSize ng env t with
  | (.error e, t', calls) => (.error e, t', calls)
  | (.ok size, t', calls) => (.ok (decide ((size : Int) ≥ desiredSize)), t', calls)

/-- Method `IncreaseSize`: reject a non-positive delta before any provider
call; read the target size (one provider call); reject when the desired
size exceeds the maximum; otherwise create the servers and block on the
convergence poll.  (The Go bounds-error message interpolates the two
sizes; the numeric interpolation is elided here.) -/
def increaseSize (ng : BrightboxNodeGroup) (env : CloudEnv) (delta : Int)
    (t : Nat) : Except String Unit × Nat × List ProviderCall :=
  if delta ≤ 0 then (.error "size increase must be positive", t, [])
  else
    match targetSize ng env t with
    | (.error e, t', calls) => (.error e, t', calls)
    | (.ok size, t', calls) =>
      if (size : Int) + delta > ng.maxSize then
        (.error "size increase too large", t', calls)
      else
        match createServers env t' delta.toNat with
        | (.error e, t'', calls2) => (.error e, t'', calls ++ calls2)
        | (.ok _, t'', calls2) =>
          match waitPoll (sizePollCond ng env ((size : Int) + delta)) pollAttempts t'' with
          | (r, t3, calls3) => (r, t3, calls ++ calls2 ++ calls3)

/-- Method `DecreaseTargetSize`: reject a non-negative delta before any
provider call; otherwise read target size and current size (two
separate provider round trips) and fail either with the
delete-through-the-wrong-path rejection or, unreachably in the
synchronous model, the "Shouldn't have got here!" error.  (The Go
rejection message interpolates the sizes; the interpolation is elided.) -/
def decreaseTargetSize (ng : BrightboxNodeGroup) (env : CloudEnv) (delta : Int)
    (t : Nat) : Except String Unit × Nat × List ProviderCall :=
  if delta ≥ 0 then (.error "decrease size must be negative", t, [])
  else
    match targetSize ng env t with
    | (.error e, t', calls) => (.error e, t', calls)
    | (.ok size, t', calls) =>
      match currentSize ng env t' with
      | (.error e, t'', calls2) => (.error e, t'', calls ++ calls2)
      | (.ok nodesize, t'', calls2) =>
        if (size : Int) + delta < (nodesize : Int) then
          (.error "attempt to delete existing nodes", t'', calls ++ calls2)
        else
          (.error "Shouldn't have got here!", t'', calls ++ calls2)

/-- Method `isMissing`: direct provider lookup of the server; a lookup failure
propagates; a server marked deleted or whose group list does not contain
this group's id is missing. -/
def isMissing (ng : BrightboxNodeGroup) (env : CloudEnv) (serverId : String)
    (t : Nat) : Except String Bool × Nat × List ProviderCall :=
  match env.serverRes serverId t with
  | .error e => (.error e, t + 1, [.getServer serverId])
  | .ok server =>
    if server.deletedAt.isSome then (.ok true, t + 1, [.getServer serverId])
    else if server.serverGroups.contains ng.id then
      (.ok false, t + 1, [.getServer serverId])
    else (.ok true, t + 1, [.getServer serverId])

/-- Method `deleteServerFromGroup`: verify membership via `isMissing` (a
missing server is a cross-group error and is never destroyed), then
destroy the server and poll until it is observed missing. -/
def deleteServerFromGroup (ng : BrightboxNodeGroup) (env : CloudEnv)
    (serverId : String) (t : Nat) : Except String Unit × Nat × List ProviderCall :=
  match isMissing ng env serverId t with
  | (.error e, t', calls) => (.error e, t', calls)
  | (.ok true, t', calls) =>
    (.error (serverId ++ " belongs to a different group than " ++ ng.id), t', calls)
  | (.ok false, t', calls) =>
    match env.destroyRes serverId t' with
    | .error e => (.error e, t' + 1, calls ++ [.destroyServer serverId])
    | .ok _ =>
      match waitPoll (fun u => isMissing ng env serverId u) pollAttempts (t' + 1) with
      | (r, t'', calls2) =>
        (r, t'', calls ++ .destroyServer serverId :: calls2)

/-- Method `DeleteNodes` over the batch of server ids (Go maps each node's
provider id to its server id via the external
`k8ssdk.MapProviderIDToServerID`; the ids are taken as input here): each
iteration re-reads the current size, aborts at or below the minimum,
then deletes the server; any failure aborts the remaining batch. -/
def deleteNodes (ng : BrightboxNodeGroup) (env : CloudEnv) :
    List String → Nat → Except String Unit × Nat × List ProviderCall
  | [], t => (.ok (), t, [])
  | node :: rest, t =>
    match currentSize ng env t with
    | (.error e, t', calls) => (.error e, t', calls)
    | (.ok size, t', calls) =>
      if (size : Int) ≤ ng.minSize then
        (.error "min size reached, no further nodes will be deleted", t', calls)
      else
        match deleteServerFromGroup ng env node t' with
        | (.error e, t'', calls2) => (.error e, t'', calls ++ calls2)
        | (.ok _, t'', calls2) =>
          match deleteNodes ng env rest t'' with
          | (r, t3, calls3) => (r, t3, calls ++ calls2 ++ calls3)

/-- Helper: the bounds produced by `makeNodeGroupFromApiDetails` are
exactly those of `descriptorBoundsAmended`. -/
theorem makeNodeGroup_bounds (id name description : String) (defaultSize : Int)
    (t i z m u : String) :
    ((makeNodeGroupFromApiDetails id name description defaultSize t i z m u).minSize,
     (makeNodeGroupFromApiDetails id name description defaultSize t i z m u).maxSize) =
      descriptorBoundsAmended description defaultSize := by
  unfold makeNodeGroupFromApiDetails descriptorBoundsAmended
  rcases goSplit description ':' with _ | ⟨a, _ | ⟨b, _ | ⟨c, rest⟩⟩⟩ <;>
    simp [List.get!]
  cases strconvAtoi a <;> cases strconvAtoi b <;> simp

/-- Claim C2, counterexample: on the descriptor "4:2" (two integers that
parse but with min ≥ max) and current member count 3, the claim's
contract demands the degenerate fallback (3, 3), but
`makeNodeGroupFromApiDetails` keeps the parsed pair (4, 2): there is no
min < max validation in the code. -/
theorem claim_C2_counterexample :
    descriptorBoundsSpec "4:2" 3 = (3, 3) ∧
    ((makeNodeGroupFromApiDetails "grp-sda44" "auto.workers" "4:2" 3
        "typ-testy" "img-testy" "zon-testy" "grp-y6cai" "ud").minSize,
     (makeNodeGroupFromApiDetails "grp-sda44" "auto.workers" "4:2" 3
        "typ-testy" "img-testy" "zon-testy" "grp-y6cai" "ud").maxSize) = (4, 2) ∧
    ((4 : Int), (2 : Int)) ≠ ((3 : Int), (3 : Int)) := by
  refine ⟨by decide, by decide, by decide⟩

/-- Claim C2, amended: for every free-text descriptor, splitting on ":"
into exactly two fields makes each field that parses as an integer set
its bound independently (first field → min, second field → max); a field
that fails to parse leaves that bound at the default (the group's
current member count), and any other field count leaves both bounds at
the default.  No min < max validation is performed and no error is ever
raised (the constructor is total). -/
theorem claim_C2_amended (id name description : String) (defaultSize : Int)
    (t i z m u : String) :
    ((makeNodeGroupFromApiDetails id name description defaultSize t i z m u).minSize,
     (makeNodeGroupFromApiDetails id name description defaultSize t i z m u).maxSize) =
      descriptorBoundsAmended description defaultSize :=
  makeNodeGroup_bounds id name description defaultSize t i z m u

theorem goodStatus_ne_empty {s : String} (h : goodStatus s) : s ≠ "" := by
  rcases h with h | h <;> subst h <;> decide

/-- Folding an acceptable value into the empty consensus slot selects it. -/
theorem checkForChange_empty (new : IdWithStatus) (m : String)
    (h : goodStatus new.status) :
    checkForChange ⟨"", ""⟩ new m = new := by
  unfold checkForChange
  rcases h with h | h <;> split_ifs <;> simp_all [statusAvailable, statusDeprecated]

/-- Consensus stability: once the slot holds the agreed id with an
acceptable status, folding another value with the same id keeps the id
and an acceptable status. -/
theorem checkForChange_sticky (cur new : IdWithStatus) {I : String} (m : String)
    (hc : cur.id = I) (hg : goodStatus cur.status) (hn : new.id = I) :
    (checkForChange cur new m).id = I ∧ goodStatus (checkForChange cur new m).status := by
  unfold checkForChange
  split_ifs <;> simp_all [goodStatus]

/-- An "available" holder is never displaced by a "deprecated" value. -/
theorem checkForChange_keepAvailable {cur new : IdWithStatus} (m : String)
    (hc : cur.id ≠ "") (hs : cur.status = statusAvailable)
    (hn : new.status = statusDeprecated) :
    checkForChange cur new m = cur := by
  unfold checkForChange
  split_ifs <;> simp_all [statusAvailable, statusDeprecated]

/-- An "available" value displaces a "deprecated" holder. -/
theorem checkForChange_takeAvailable {cur new : IdWithStatus} (m : String)
    (hs : cur.status = statusDeprecated) (hn : new.status = statusAvailable) :
    checkForChange cur new m = new := by
  unfold checkForChange
  split_ifs with h1 h2 <;> simp_all [statusAvailable, statusDeprecated]

/-- Zone step on an already-adopted equal zone keeps it. -/
theorem checkZoneForChange_same (z s : String) : checkZoneForChange z z s = z := by
  simp [checkZoneForChange]

/-- Zone step from the sentinel adopts the incoming zone. -/
theorem checkZoneForChange_sentinel (z s : String) : checkZoneForChange s z s = z := by
  simp [checkZoneForChange]

/-- Zone step on a differing zone resolves to the balanced value. -/
theorem checkZoneForChange_diff {z z' s : String} (h1 : z ≠ z') (h2 : z ≠ s) :
    checkZoneForChange z z' s = "" := by
  simp [checkZoneForChange, h1, h2]

/-- Consensus induction: once the fold has adopted the agreed triple, a
tail of members that all agree on it keeps it, and the loop succeeds. -/
theorem extractLoop_agree (fetch : String → Except String Server)
    (T I Z : String) :
    ∀ (ids : List String) (st im : IdWithStatus),
      (∀ sid ∈ ids, ∃ srv, fetch sid = .ok srv ∧
        srv.serverType.id = T ∧ goodStatus srv.serverType.status ∧
        srv.image.id = I ∧ goodStatus srv.image.status ∧ srv.zone.id = Z) →
      st.id = T → goodStatus st.status → im.id = I → goodStatus im.status →
      ∃ st' im', extractLoop fetch ids st im Z = .ok (st', im', Z) ∧
        st'.id = T ∧ im'.id = I
  | [], st, im, _, hst, _, him, _ => ⟨st, im, rfl, hst, him⟩
  | sid :: rest, st, im, hall, hst, hstg, him, himg => by
    obtain ⟨srv, hfetch, hT, hTg, hI, hIg, hZ⟩ := hall sid (by simp)
    have hrest : ∀ s ∈ rest, ∃ srv, fetch s = .ok srv ∧
        srv.serverType.id = T ∧ goodStatus srv.serverType.status ∧
        srv.image.id = I ∧ goodStatus srv.image.status ∧ srv.zone.id = Z :=
      fun s hs => hall s (by simp [hs])
    have hst' := checkForChange_sticky st
      ⟨srv.serverType.id, srv.serverType.status⟩
      "Group has multiple ServerType Ids" hst hstg hT
    have him' := checkForChange_sticky im
      ⟨srv.image.id, srv.image.status⟩
      "Group has multiple Image Ids" him himg hI
    have hz : checkZoneForChange Z srv.zone.id zoneSentinel = Z := by
      rw [hZ]; exact checkZoneForChange_same Z zoneSentinel
    unfold extractLoop
    rw [hfetch]
    dsimp only
    rw [hz]
    exact extractLoop_agree fetch T I Z rest _ _ hrest hst'.1 hst'.2 him'.1 him'.2

/-- Claim C5, counterexample: a group whose single member (trivially,
all members) agrees on (type "typ-1", image "img-1", zone "zon-a") but
whose image status is neither "available" nor "deprecated" makes
`extractGroupDefaults` fail instead of returning the agreed triple: the
consensus step ignores values with any other status. -/
theorem claim_C5_counterexample :
    extractGroupDefaults
      (fun _ => .ok { id := "srv-1", status := "active", deletedAt := none,
                      serverGroups := [],
                      image := ⟨"img-1", "experimental"⟩,
                      serverType := ⟨"typ-1", "available"⟩,
                      zone := ⟨"zon-a"⟩ })
      ["srv-1"]
      = .error "Unable to determine Image details from Group" ∧
    (Except.error "Unable to determine Image details from Group" :
        Except String (String × String × String)) ≠ .ok ("typ-1", "img-1", "zon-a") := by
  exact ⟨rfl, fun h => Except.noConfusion h⟩

/-- Claim C5, amended.  For the Consensus Extractor:
(A) a member list whose members all agree on (type=T, image=I, zone=Z),
with T and I nonempty, Z not the internal sentinel, and every member's
type and image status "available" or "deprecated", yields exactly
(T, I, Z) — members with any other status are ignored by the fold, which
is why the status hypothesis is required;
(B) two members split across two different zones resolve the zone to the
unconstrained empty value instead of failing;
(C) with one "available" and one "deprecated" image, the available image
is selected in either scan order. -/
theorem claim_C5_amended :
    (∀ (fetch : String → Except String Server) (ids : List String) (T I Z : String),
      ids ≠ [] → T ≠ "" → I ≠ "" → Z ≠ zoneSentinel →
      (∀ sid ∈ ids, ∃ srv, fetch sid = .ok srv ∧
        srv.serverType.id = T ∧ goodStatus srv.serverType.status ∧
        srv.image.id = I ∧ goodStatus srv.image.status ∧ srv.zone.id = Z) →
      extractGroupDefaults fetch ids = .ok (T, I, Z)) ∧
    (∀ (fetch : String → Except String Server) (s1 s2 : String)
       (srv1 srv2 : Server) (T I : String),
      fetch s1 = .ok srv1 → fetch s2 = .ok srv2 →
      srv1.serverType.id = T → goodStatus srv1.serverType.status →
      srv2.serverType.id = T → goodStatus srv2.serverType.status →
      srv1.image.id = I → goodStatus srv1.image.status →
      srv2.image.id = I → goodStatus srv2.image.status →
      T ≠ "" → I ≠ "" →
      srv1.zone.id ≠ srv2.zone.id → srv1.zone.id ≠ zoneSentinel →
      extractGroupDefaults fetch [s1, s2] = .ok (T, I, "")) ∧
    (∀ (fetch : String → Except String Server) (s1 s2 : String)
       (srv1 srv2 : Server) (T I1 I2 Z : String),
      fetch s1 = .ok srv1 → fetch s2 = .ok srv2 →
      srv1.serverType.id = T → goodStatus srv1.serverType.status →
      srv2.serverType.id = T → goodStatus srv2.serverType.status →
      srv1.image = ⟨I1, statusAvailable⟩ → srv2.image = ⟨I2, statusDeprecated⟩ →
      srv1.zone.id = Z → srv2.zone.id = Z →
      T ≠ "" → I1 ≠ "" → Z ≠ zoneSentinel →
      extractGroupDefaults fetch [s1, s2] = .ok (T, I1, Z) ∧
      extractGroupDefaults fetch [s2, s1] = .ok (T, I1, Z)) := by
  refine ⟨?partA, ?partB, ?partC⟩
  case partA =>
    intro fetch ids T I Z hne hT0 hI0 hZ0 hall
    obtain ⟨sid, rest, rfl⟩ : ∃ a l, ids = a :: l := by
      cases ids with
      | nil => exact absurd rfl hne
      | cons a l => exact ⟨a, l, rfl⟩
    obtain ⟨srv, hfetch, hT, hTg, hI, hIg, hZ⟩ := hall sid (by simp)
    have hrest : ∀ s ∈ rest, ∃ srv, fetch s = .ok srv ∧
        srv.serverType.id = T ∧ goodStatus srv.serverType.status ∧
        srv.image.id = I ∧ goodStatus srv.image.status ∧ srv.zone.id = Z :=
      fun s hs => hall s (by simp [hs])
    unfold extractGroupDefaults extractLoop
    rw [hfetch]
    dsimp only
    rw [checkZoneForChange_sentinel, hZ,
      checkForChange_empty ⟨srv.serverType.id, srv.serverType.status⟩ _ hTg,
      checkForChange_empty ⟨srv.image.id, srv.image.status⟩ _ hIg]
    obtain ⟨st', im', hloop, hst', him'⟩ :=
      extractLoop_agree fetch T I Z rest ⟨srv.serverType.id, srv.serverType.status⟩
        ⟨srv.image.id, srv.image.status⟩ hrest hT hTg hI hIg
    rw [hloop]
    simp [hst', him', hT0, hI0, hZ0]
  case partB =>
    intro fetch s1 s2 srv1 srv2 T I hf1 hf2 hT1 hTg1 hT2 hTg2 hI1 hIg1 hI2 hIg2
      hT0 hI0 hzne hzs
    unfold extractGroupDefaults extractLoop
    rw [hf1]
    dsimp only
    unfold extractLoop
    rw [hf2]
    dsimp only
    rw [checkZoneForChange_sentinel, checkZoneForChange_diff hzne hzs,
      checkForChange_empty ⟨srv1.serverType.id, srv1.serverType.status⟩ _ hTg1,
      checkForChange_empty ⟨srv1.image.id, srv1.image.status⟩ _ hIg1]
    have hst2 := checkForChange_sticky ⟨srv1.serverType.id, srv1.serverType.status⟩
      ⟨srv2.serverType.id, srv2.serverType.status⟩
      "Group has multiple ServerType Ids" hT1 hTg1 hT2
    have him2 := checkForChange_sticky ⟨srv1.image.id, srv1.image.status⟩
      ⟨srv2.image.id, srv2.image.status⟩
      "Group has multiple Image Ids" hI1 hIg1 hI2
    unfold extractLoop
    simp [hst2.1, him2.1, hT0, hI0, zoneSentinel]
  case partC =>
    intro fetch s1 s2 srv1 srv2 T I1 I2 Z hf1 hf2 hT1 hTg1 hT2 hTg2 him1 him2
      hz1 hz2 hT0 hI0 hZ0
    have hIg1 : goodStatus srv1.image.status := by rw [him1]; exact Or.inl rfl
    have hIg2 : goodStatus srv2.image.status := by rw [him2]; exact Or.inr rfl
    constructor
    · unfold extractGroupDefaults extractLoop
      rw [hf1]
      dsimp only
      unfold extractLoop
      rw [hf2]
      dsimp only
      rw [checkZoneForChange_sentinel, hz1, hz2, checkZoneForChange_same,
        checkForChange_empty ⟨srv1.serverType.id, srv1.serverType.status⟩ _ hTg1,
        checkForChange_empty ⟨srv1.image.id, srv1.image.status⟩ _ hIg1]
      have hst2 := checkForChange_sticky ⟨srv1.serverType.id, srv1.serverType.status⟩
        ⟨srv2.serverType.id, srv2.serverType.status⟩
        "Group has multiple ServerType Ids" hT1 hTg1 hT2
      have hkeep : checkForChange ⟨srv1.image.id, srv1.image.status⟩
          ⟨srv2.image.id, srv2.image.status⟩ "Group has multiple Image Ids" =
          ⟨srv1.image.id, srv1.image.status⟩ :=
        checkForChange_keepAvailable _ (by rw [him1]; exact hI0)
          (by rw [him1]) (by rw [him2])
      rw [hkeep]
      unfold extractLoop
      simp [hst2.1, hT0, him1, hI0, hZ0]
    · unfold extractGroupDefaults extractLoop
      rw [hf2]
      dsimp only
      unfold extractLoop
      rw [hf1]
      dsimp only
      rw [checkZoneForChange_sentinel, hz1, hz2, checkZoneForChange_same,
        checkForChange_empty ⟨srv2.serverType.id, srv2.serverType.status⟩ _ hTg2,
        checkForChange_empty ⟨srv2.image.id, srv2.image.status⟩ _ hIg2]
      have hst2 := checkForChange_sticky ⟨srv2.serverType.id, srv2.serverType.status⟩
        ⟨srv1.serverType.id, srv1.serverType.status⟩
        "Group has multiple ServerType Ids" hT2 hTg2 hT1
      have htake : checkForChange ⟨srv2.image.id, srv2.image.status⟩
          ⟨srv1.image.id, srv1.image.status⟩ "Group has multiple Image Ids" =
          ⟨srv1.image.id, srv1.image.status⟩ :=
        checkForChange_takeAvailable _ (by rw [him2]) (by rw [him1])
      rw [htake]
      unfold extractLoop
      simp [hst2.1, hT0, him1, hI0, hZ0]

/-- Claim C5, witness: a concrete two-member group agreeing on
("typ-1", "img-1", "zon-a") with "available" statuses extracts exactly
that triple. -/
theorem claim_C5_witness :
    extractGroupDefaults
      (fun _ => .ok { id := "srv-1", status := "active", deletedAt := none,
                      serverGroups := [],
                      image := ⟨"img-1", "available"⟩,
                      serverType := ⟨"typ-1", "available"⟩,
                      zone := ⟨"zon-a"⟩ })
      ["srv-1", "srv-2"] = .ok ("typ-1", "img-1", "zon-a") :=
  claim_C5_amended.1 _ ["srv-1", "srv-2"] "typ-1" "img-1" "zon-a"
    (by simp) (by decide) (by decide) (by decide)
    (fun sid _ => ⟨_, rfl, rfl, Or.inl rfl, rfl, Or.inl rfl, rfl⟩)

/-- An ineligible group at the head of the list is skipped by the
`Refresh` loop without touching the accumulated node groups or
membership index. -/
theorem refreshLoop_cons_skip (env : DiscoveryEnv) (suf dg : String)
    (g : ServerGroup) (rest : List ServerGroup)
    (ngs : List BrightboxNodeGroup) (nm : List (String × String))
    (h : ¬ eligibleGroup suf g) :
    refreshLoop env suf dg (g :: rest) ngs nm =
      refreshLoop env suf dg rest ngs nm := by
  by_cases hb : goHasSuffix g.name suf = false
  · simp [refreshLoop, hb]
  · have hb' : goHasSuffix g.name suf = true := by
      cases hgb : goHasSuffix g.name suf with
      | false => exact absurd hgb hb
      | true => rfl
    by_cases hl : g.servers.length < 1
    · simp [refreshLoop, hb, hl]
    · by_cases hs : (getSizesFromDescription g.description).1 =
          (getSizesFromDescription g.description).2
      · simp [refreshLoop, hb, hl, hs]
      · exact absurd ⟨hb', by omega, hs⟩ h

/-- Ineligible groups are skipped by the `Refresh` loop. -/
theorem refreshLoop_skip (env : DiscoveryEnv) (suf dg : String) :
    ∀ (pre l : List ServerGroup) (ngs : List BrightboxNodeGroup)
      (nm : List (String × String)),
      (∀ g ∈ pre, ¬ eligibleGroup suf g) →
      refreshLoop env suf dg (pre ++ l) ngs nm = refreshLoop env suf dg l ngs nm
  | [], _, _, _, _ => rfl
  | g :: pre, l, ngs, nm, h => by
    rw [List.cons_append,
      refreshLoop_cons_skip env suf dg g (pre ++ l) ngs nm (h g (by simp))]
    exact refreshLoop_skip env suf dg pre l ngs nm
      (fun g' hm => h g' (by simp [hm]))

/-- An eligible group whose consensus extraction fails makes the
`Refresh` loop return that error at once. -/
theorem refreshLoop_error (env : DiscoveryEnv) (suf dg : String)
    (g : ServerGroup) (rest : List ServerGroup)
    (ngs : List BrightboxNodeGroup) (nm : List (String × String))
    (e : String)
    (helig : eligibleGroup suf g)
    (hext : extractGroupDefaults env.getServer g.servers = .error e) :
    refreshLoop env suf dg (g :: rest) ngs nm = .error e := by
  obtain ⟨h1, h2, h3⟩ := helig
  have hb : ¬ (goHasSuffix g.name suf = false) := by simp [h1]
  have hl : ¬ (g.servers.length < 1) := by omega
  simp [refreshLoop, hb, hl, h3, hext]

/-- Claim C1, counterexample: a discovery cycle over two eligible groups
where consensus extraction fails for the first (its member lookup
returns a provider error) does not continue with the second eligible
group: `refresh` returns the error and no node-group set at all, instead
of skipping the failing group. -/
theorem claim_C1_counterexample :
    refresh "k8s.example"
      { getServerGroups := .ok
          [ ⟨"grp-bad", "w1.k8s.example", "1:4", ["srv-bad1"]⟩,
            ⟨"grp-good", "w2.k8s.example", "1:4", ["srv-good1"]⟩ ],
        getServer := fun sid =>
          if sid = "srv-bad1" then .error "Fake API Error"
          else .ok ⟨"srv-good1", "active", none, [],
            ⟨"img-1", "available"⟩, ⟨"typ-1", "available"⟩, ⟨"zon-a"⟩⟩,
        userData := "ud" } = .error "Fake API Error" ∧
    eligibleGroup ".k8s.example" ⟨"grp-bad", "w1.k8s.example", "1:4", ["srv-bad1"]⟩ ∧
    eligibleGroup ".k8s.example" ⟨"grp-good", "w2.k8s.example", "1:4", ["srv-good1"]⟩ := by
  exact ⟨rfl, by decide, by decide⟩

/-- Claim C1, amended: during the discovery cycle, a launch-template
extraction failure for an eligible provider group is fatal to the whole
cycle — `Refresh` returns that group's extraction error immediately, no
new NodeGroup set or membership index is produced (the previous cycle's
state is left in place), and later groups, eligible or not, are not
examined. -/
theorem claim_C1_amended (clusterName : String) (env : DiscoveryEnv)
    (pre : List ServerGroup) (g : ServerGroup) (rest : List ServerGroup)
    (e : String)
    (hlist : env.getServerGroups = .ok (pre ++ g :: rest))
    (hpre : ∀ g' ∈ pre, ¬ eligibleGroup ("." ++ clusterName) g')
    (helig : eligibleGroup ("." ++ clusterName) g)
    (hext : extractGroupDefaults env.getServer g.servers = .error e) :
    refresh clusterName env = .error e := by
  unfold refresh
  rw [hlist]
  dsimp only
  rw [refreshLoop_skip env ("." ++ clusterName) _ pre (g :: rest) [] [] hpre]
  exact refreshLoop_error env _ _ g rest [] [] e helig hext

/-- Claim C1, witness: a concrete cycle with one ineligible group, then
an eligible group whose member lookup fails, then another eligible
group, returns the lookup error. -/
theorem claim_C1_witness :
    refresh "k8s.example"
      { getServerGroups := .ok
          [ ⟨"grp-other", "unrelated-name", "1:4", ["srv-x"]⟩,
            ⟨"grp-bad", "w1.k8s.example", "1:4", ["srv-bad1"]⟩,
            ⟨"grp-good", "w2.k8s.example", "1:4", ["srv-good1"]⟩ ],
        getServer := fun sid =>
          if sid = "srv-bad1" then .error "Fake API Error"
          else .ok ⟨"srv-good1", "active", none, [],
            ⟨"img-1", "available"⟩, ⟨"typ-1", "available"⟩, ⟨"zon-a"⟩⟩,
        userData := "ud" } = .error "Fake API Error" :=
  claim_C1_amended "k8s.example" _
    [⟨"grp-other", "unrelated-name", "1:4", ["srv-x"]⟩]
    ⟨"grp-bad", "w1.k8s.example", "1:4", ["srv-bad1"]⟩
    [⟨"grp-good", "w2.k8s.example", "1:4", ["srv-good1"]⟩]
    "Fake API Error" rfl (by decide) (by decide) rfl

/-- Claim C10: a node whose server id has no entry in the membership
index yields neither a node group nor an error from `NodeGroupForNode`
— unmanaged instances are silently ignored. -/
theorem claim_C10 (nodeGroups : List BrightboxNodeGroup)
    (nodeMap : List (String × String)) (serverID : String)
    (h : mapLookup nodeMap serverID = none) :
    nodeGroupForNode nodeGroups nodeMap serverID = (none, none) := by
  unfold nodeGroupForNode
  rw [h]

/-- Claim C10, witness: a concrete index without the queried id. -/
theorem claim_C10_witness :
    nodeGroupForNode [] [("srv-rp897", "grp-sda44")] "srv-zzzzz" = (none, none) :=
  claim_C10 [] [("srv-rp897", "grp-sda44")] "srv-zzzzz" (by decide)

/-- Claim C4: `DecreaseTargetSize` always returns an error and issues at
most size-query provider calls (never a create or destroy): a
non-negative delta is rejected before any provider call, and whenever
the two size reads observe the same member count (the synchronous model)
every negative delta is rejected as an attempt to delete existing nodes
through the wrong path. -/
theorem claim_C4 (ng : BrightboxNodeGroup) (env : CloudEnv) (delta : Int) (t : Nat) :
    (∃ e, (decreaseTargetSize ng env delta t).1 = .error e) ∧
    (∀ c ∈ (decreaseTargetSize ng env delta t).2.2, c = ProviderCall.getGroup ng.id) ∧
    (delta ≥ 0 →
      decreaseTargetSize ng env delta t =
        (.error "decrease size must be negative", t, [])) ∧
    (delta < 0 → ∀ g g', env.groupRes t = .ok g → env.groupRes (t + 1) = .ok g' →
      g.servers.length = g'.servers.length →
      (decreaseTargetSize ng env delta t).1 = .error "attempt to delete existing nodes") := by
  by_cases hd : delta ≥ 0
  · exact ⟨⟨"decrease size must be negative", by simp [decreaseTargetSize, hd]⟩,
      by simp [decreaseTargetSize, hd],
      fun _ => by simp [decreaseTargetSize, hd],
      fun hneg => absurd hd (by omega)⟩
  · cases hg1 : env.groupRes t with
    | error e =>
      refine ⟨⟨e, ?_⟩, ?_, fun h => absurd h hd, fun _ g g' h1 => ?_⟩
      · simp [decreaseTargetSize, targetSize, hd, hg1]
      · simp [decreaseTargetSize, targetSize, hd, hg1]
      · exact absurd h1 (by simp)
    | ok g =>
      cases hg2 : env.groupRes (t + 1) with
      | error e =>
        refine ⟨⟨e, ?_⟩, ?_, fun h => absurd h hd, fun _ g1 g' h1 h2 => ?_⟩
        · simp [decreaseTargetSize, targetSize, currentSize, hd, hg1, hg2]
        · simp [decreaseTargetSize, targetSize, currentSize, hd, hg1, hg2]
        · exact absurd h2 (by simp)
      | ok g' =>
        refine ⟨?_, ?_, fun h => absurd h hd, fun hneg g1 g1' h1 h2 hlen => ?_⟩
        · by_cases hlt : (g.servers.length : Int) + delta < (g'.servers.length : Int)
          · exact ⟨"attempt to delete existing nodes",
              by simp [decreaseTargetSize, targetSize, currentSize, hd, hg1, hg2, hlt]⟩
          · exact ⟨"Shouldn't have got here!",
              by simp [decreaseTargetSize, targetSize, currentSize, hd, hg1, hg2, hlt]⟩
        · simp [decreaseTargetSize, targetSize, currentSize, hd, hg1, hg2]
          split_ifs <;> simp
        · obtain rfl : g1 = g := by injection h1 with h; exact h.symm
          obtain rfl : g1' = g' := by injection h2 with h; exact h.symm
          simp [decreaseTargetSize, targetSize, currentSize, hd, hg1, hg2]
          split_ifs with hlt
          · simp
          · exact absurd (by omega) hlt

/-- Claim C4, witness: delta -1 on a group observed at the same size
twice is rejected with the wrong-path error, and delta 0 is rejected
immediately with no provider call. -/
theorem claim_C4_witness :
    (decreaseTargetSize ⟨"grp-sda44", 1, 4, ⟨"img", "auto.w", "typ", "zon", "ud", ["grp-main", "grp-sda44"]⟩⟩
      { groupRes := fun _ => .ok ⟨"grp-sda44", "w.k8s", "1:4", ["srv-1", "srv-2"]⟩,
        serverRes := fun _ _ => .error "not found",
        createRes := fun _ => .ok (), destroyRes := fun _ _ => .ok () }
      (-1) 0).1 = .error "attempt to delete existing nodes" :=
  (claim_C4 _ _ (-1) 0).2.2.2 (by decide) _ _ rfl rfl rfl

/-- Claim C3, counterexample: an `IncreaseSize` call that violates the
maximum bound (size 2 + delta 4 > max 4) is rejected only after a
provider size-query call has been made — the trace of provider calls at
rejection is not empty, contradicting "rejected before any provider
call is made". -/
theorem claim_C3_counterexample :
    increaseSize ⟨"grp-sda44", 1, 4, ⟨"img", "auto.w", "typ", "zon", "ud", ["grp-main", "grp-sda44"]⟩⟩
      { groupRes := fun _ => .ok ⟨"grp-sda44", "w.k8s", "1:4", ["srv-1", "srv-2"]⟩,
        serverRes := fun _ _ => .error "not found",
        createRes := fun _ => .ok (), destroyRes := fun _ _ => .ok () } 4 0 =
      (.error "size increase too large", 1, [.getGroup "grp-sda44"]) ∧
    ([ProviderCall.getGroup "grp-sda44"] : List ProviderCall) ≠ [] :=
  ⟨rfl, by decide⟩

/-- Claim C3, amended: every bounds violation is rejected before any
provider mutation call (create or destroy) and is never retried —
`IncreaseSize` with delta ≤ 0 is rejected before any provider call at
all; `IncreaseSize` beyond the maximum and `DeleteNodes` at or below the
minimum are each rejected after exactly the one provider size query the
check needs, with no mutation call and no retry (the full call trace is
pinned by each equation). -/
theorem claim_C3_amended :
    (∀ (ng : BrightboxNodeGroup) (env : CloudEnv) (delta : Int) (t : Nat),
      delta ≤ 0 →
      increaseSize ng env delta t = (.error "size increase must be positive", t, [])) ∧
    (∀ (ng : BrightboxNodeGroup) (env : CloudEnv) (delta : Int) (t : Nat)
       (g : ServerGroup),
      0 < delta → env.groupRes t = .ok g →
      (g.servers.length : Int) + delta > ng.maxSize →
      increaseSize ng env delta t =
        (.error "size increase too large", t + 1, [.getGroup ng.id])) ∧
    (∀ (ng : BrightboxNodeGroup) (env : CloudEnv) (node : String)
       (rest : List String) (t : Nat) (g : ServerGroup),
      env.groupRes t = .ok g → (g.servers.length : Int) ≤ ng.minSize →
      deleteNodes ng env (node :: rest) t =
        (.error "min size reached, no further nodes will be deleted", t + 1,
          [.getGroup ng.id])) := by
  refine ⟨fun ng env delta t h => by simp [increaseSize, h], ?_, ?_⟩
  · intro ng env delta t g hd hg hmax
    unfold increaseSize targetSize
    rw [if_neg (by omega), hg]
    dsimp only
    rw [if_pos hmax]
  · intro ng env node rest t g hg hmin
    unfold deleteNodes currentSize targetSize
    rw [hg]
    dsimp only
    rw [if_pos hmin]

/-- Claim C3, witness: a non-positive delta is rejected with an empty
provider-call trace, and concrete max-bound and min-bound violations
are rejected with exactly one size query each. -/
theorem claim_C3_witness :
    increaseSize ⟨"grp-sda44", 1, 4, ⟨"img", "auto.w", "typ", "zon", "ud", ["grp-main", "grp-sda44"]⟩⟩
      { groupRes := fun _ => .ok ⟨"grp-sda44", "w.k8s", "1:4", ["srv-1", "srv-2"]⟩,
        serverRes := fun _ _ => .error "not found",
        createRes := fun _ => .ok (), destroyRes := fun _ _ => .ok () } 0 7 =
      (.error "size increase must be positive", 7, []) ∧
    deleteNodes ⟨"grp-sda44", 2, 4, ⟨"img", "auto.w", "typ", "zon", "ud", ["grp-main", "grp-sda44"]⟩⟩
      { groupRes := fun _ => .ok ⟨"grp-sda44", "w.k8s", "2:4", ["srv-1", "srv-2"]⟩,
        serverRes := fun _ _ => .error "not found",
        createRes := fun _ => .ok (), destroyRes := fun _ _ => .ok () }
      ["srv-1"] 0 =
      (.error "min size reached, no further nodes will be deleted", 1,
        [.getGroup "grp-sda44"]) :=
  ⟨claim_C3_amended.1 _ _ 0 7 (by decide),
   claim_C3_amended.2.2 _ _ "srv-1" [] 0 _ rfl (by decide)⟩

/-- When every create call succeeds, `createServers` issues exactly
`n` creates. -/
theorem createServers_ok (env : CloudEnv) :
    ∀ (n t : Nat), (∀ i < n, env.createRes (t + i) = .ok ()) →
      createServers env t n = (.ok (), t + n, List.replicate n .createServer)
  | 0, t, _ => by simp [createServers]
  | n + 1, t, h => by
    have h0 : env.createRes t = .ok () := by simpa using h 0 (by omega)
    have hrec := createServers_ok env n (t + 1) (fun i hi => by
      have := h (i + 1) (by omega)
      rwa [show t + (i + 1) = t + 1 + i by omega] at this)
    unfold createServers
    rw [h0]
    dsimp only
    rw [hrec]
    refine Prod.ext rfl (Prod.ext ?_ ?_) <;> simp [List.replicate_succ] <;> omega

/-- When the creates succeed up to the k-th call and that call fails,
`createServers` aborts there: the error propagates, exactly k+1 creates
were issued, and no further create follows. -/
theorem createServers_fail (env : CloudEnv) :
    ∀ (k n t : Nat) (e : String), k < n →
      (∀ i < k, env.createRes (t + i) = .ok ()) →
      env.createRes (t + k) = .error e →
      createServers env t n = (.error e, t + k + 1, List.replicate (k + 1) .createServer)
  | 0, n, t, e, hk, _, hfail => by
    obtain ⟨m, rfl⟩ : ∃ m, n = m + 1 := ⟨n - 1, by omega⟩
    rw [show t + 0 = t from rfl] at hfail
    simp [createServers, hfail]
  | k + 1, n, t, e, hk, hok, hfail => by
    obtain ⟨m, rfl⟩ : ∃ m, n = m + 1 := ⟨n - 1, by omega⟩
    have h0 : env.createRes t = .ok () := by simpa using hok 0 (by omega)
    have hrec := createServers_fail env k m (t + 1) e (by omega)
      (fun i hi => by
        have := hok (i + 1) (by omega)
        rwa [show t + (i + 1) = t + 1 + i by omega] at this)
      (by rwa [show t + 1 + k = t + (k + 1) by omega])
    unfold createServers
    rw [h0]
    dsimp only
    rw [hrec]
    refine Prod.ext rfl (Prod.ext ?_ ?_) <;> simp [List.replicate_succ] <;> omega

/-- Claim C9: if the k-th of the delta sequential create calls fails,
`IncreaseSize` aborts immediately with the underlying provider error —
the call trace contains exactly k+1 create calls (none after the failing
one) and no destroy call at all (no rollback of the already-created
instances). -/
theorem claim_C9 (ng : BrightboxNodeGroup) (env : CloudEnv) (delta : Int)
    (t : Nat) (g : ServerGroup) (k : Nat) (e : String)
    (hd : 0 < delta) (hg : env.groupRes t = .ok g)
    (hmax : ¬ ((g.servers.length : Int) + delta > ng.maxSize))
    (hk : k < delta.toNat)
    (hok : ∀ i < k, env.createRes (t + 1 + i) = .ok ())
    (hfail : env.createRes (t + 1 + k) = .error e) :
    increaseSize ng env delta t =
      (.error e, t + 1 + k + 1,
        .getGroup ng.id :: List.replicate (k + 1) .createServer) ∧
    (increaseSize ng env delta t).2.2.count .createServer = k + 1 ∧
    (∀ s, ProviderCall.destroyServer s ∉ (increaseSize ng env delta t).2.2) := by
  have heq : increaseSize ng env delta t =
      (.error e, t + 1 + k + 1,
        .getGroup ng.id :: List.replicate (k + 1) .createServer) := by
    unfold increaseSize targetSize
    rw [if_neg (by omega), hg]
    dsimp only
    rw [if_neg hmax,
      createServers_fail env k delta.toNat (t + 1) e hk hok hfail]
    dsimp only
    rw [List.singleton_append]
  refine ⟨heq, ?_, ?_⟩
  · rw [heq]
    simp [List.count_cons, List.count_replicate]
  · intro s
    rw [heq]
    simp [List.mem_replicate]

/-- Claim C9, witness: with two creates requested and the second
failing, `IncreaseSize` returns the provider error after exactly two
create calls and no destroy. -/
theorem claim_C9_witness :
    increaseSize ⟨"grp-sda44", 1, 4, ⟨"img", "auto.w", "typ", "zon", "ud", ["grp-main", "grp-sda44"]⟩⟩
      { groupRes := fun _ => .ok ⟨"grp-sda44", "w.k8s", "1:4", ["srv-1", "srv-2"]⟩,
        serverRes := fun _ _ => .error "not found",
        createRes := fun u => if u = 2 then .error "Fake API Error" else .ok (),
        destroyRes := fun _ _ => .ok () } 2 0 =
      (.error "Fake API Error", 3,
        [.getGroup "grp-sda44", .createServer, .createServer]) :=
  (claim_C9 _ _ 2 0 _ 1 "Fake API Error" (by decide) rfl (by decide) (by decide)
    (fun i hi => by
      have h0 : i = 0 := by omega
      subst h0
      rfl)
    rfl).1

/-- The poll condition under a successful size read reports whether the
desired size is reached. -/
theorem sizePollCond_ok (ng : BrightboxNodeGroup) (env : CloudEnv) (d : Int)
    (t : Nat) (g : ServerGroup) (h : env.groupRes t = .ok g) :
    sizePollCond ng env d t =
      (.ok (decide ((g.servers.length : Int) ≥ d)), t + 1, [.getGroup ng.id]) := by
  simp [sizePollCond, targetSize, h]

/-- The poll condition propagates a failing size read. -/
theorem sizePollCond_err (ng : BrightboxNodeGroup) (env : CloudEnv) (d : Int)
    (t : Nat) (e : String) (h : env.groupRes t = .error e) :
    sizePollCond ng env d t = (.error e, t + 1, [.getGroup ng.id]) := by
  simp [sizePollCond, targetSize, h]

/-- The size poll succeeds only if some polled observation reached the
desired size. -/
theorem waitPoll_size_ok (ng : BrightboxNodeGroup) (env : CloudEnv) (d : Int) :
    ∀ (fuel t : Nat),
      (waitPoll (sizePollCond ng env d) fuel t).1 = .ok () →
      ∃ j, j < fuel ∧ ∃ g, env.groupRes (t + j) = .ok g ∧ d ≤ (g.servers.length : Int)
  | 0, t, h => by simp [waitPoll] at h
  | fuel + 1, t, h => by
    cases hg : env.groupRes t with
    | error e =>
      unfold waitPoll at h
      rw [sizePollCond_err ng env d t e hg] at h
      simp at h
    | ok g =>
      by_cases hge : d ≤ (g.servers.length : Int)
      · exact ⟨0, by omega, g, by simpa using hg, hge⟩
      · unfold waitPoll at h
        rw [sizePollCond_ok ng env d t g hg,
          decide_eq_false (by omega : ¬ ((g.servers.length : Int) ≥ d))] at h
        dsimp only at h
        rcases hW : waitPoll (sizePollCond ng env d) fuel (t + 1) with ⟨r, t'', c2⟩
        rw [hW] at h
        dsimp only at h
        obtain ⟨j, hj, g', hob, hge'⟩ :=
          waitPoll_size_ok ng env d fuel (t + 1) (by rw [hW]; exact h)
        exact ⟨j + 1, by omega, g',
          by rwa [show t + (j + 1) = t + 1 + j by omega], hge'⟩

/-- If every polled observation stays below the desired size, the size
poll fails with the timeout error. -/
theorem waitPoll_size_timeout (ng : BrightboxNodeGroup) (env : CloudEnv) (d : Int) :
    ∀ (fuel t : Nat),
      (∀ i < fuel, ∃ g, env.groupRes (t + i) = .ok g ∧ (g.servers.length : Int) < d) →
      (waitPoll (sizePollCond ng env d) fuel t).1 =
        .error "timed out waiting for the condition"
  | 0, t, _ => by simp [waitPoll]
  | fuel + 1, t, h => by
    obtain ⟨g, hg, hlt⟩ := h 0 (by omega)
    rw [Nat.add_zero] at hg
    unfold waitPoll
    rw [sizePollCond_ok ng env d t g hg,
      decide_eq_false (by omega : ¬ ((g.servers.length : Int) ≥ d))]
    dsimp only
    have hrec := waitPoll_size_timeout ng env d fuel (t + 1) (fun i hi => by
      obtain ⟨g', hg', hlt'⟩ := h (i + 1) (by omega)
      exact ⟨g', by rwa [show t + (i + 1) = t + 1 + i by omega] at hg', hlt'⟩)
    rcases hW : waitPoll (sizePollCond ng env d) fuel (t + 1) with ⟨r, t'', c2⟩
    rw [hW] at hrec
    exact hrec

/-- A failing size read during the poll propagates its error
immediately, before the timeout budget is exhausted. -/
theorem waitPoll_size_err (ng : BrightboxNodeGroup) (env : CloudEnv) (d : Int) :
    ∀ (j fuel t : Nat) (e : String), j < fuel →
      env.groupRes (t + j) = .error e →
      (∀ i < j, ∃ g, env.groupRes (t + i) = .ok g ∧ (g.servers.length : Int) < d) →
      (waitPoll (sizePollCond ng env d) fuel t).1 = .error e
  | 0, fuel, t, e, hj, herr, _ => by
    obtain ⟨m, rfl⟩ : ∃ m, fuel = m + 1 := ⟨fuel - 1, by omega⟩
    rw [Nat.add_zero] at herr
    unfold waitPoll
    rw [sizePollCond_err ng env d t e herr]
  | j + 1, fuel, t, e, hj, herr, hbelow => by
    obtain ⟨m, rfl⟩ : ∃ m, fuel = m + 1 := ⟨fuel - 1, by omega⟩
    obtain ⟨g, hg, hlt⟩ := hbelow 0 (by omega)
    rw [Nat.add_zero] at hg
    unfold waitPoll
    rw [sizePollCond_ok ng env d t g hg,
      decide_eq_false (by omega : ¬ ((g.servers.length : Int) ≥ d))]
    dsimp only
    have hrec := waitPoll_size_err ng env d j m (t + 1) e (by omega)
      (by rwa [show t + 1 + j = t + (j + 1) by omega])
      (fun i hi => by
        obtain ⟨g', hg', hlt'⟩ := hbelow (i + 1) (by omega)
        exact ⟨g', by rwa [show t + (i + 1) = t + 1 + i by omega] at hg', hlt'⟩)
    rcases hW : waitPoll (sizePollCond ng env d) m (t + 1) with ⟨r, t'', c2⟩
    rw [hW] at hrec
    exact hrec

/-- After a successful size read, bounds check and creates,
`IncreaseSize` returns exactly what the convergence poll returns. -/
theorem increaseSize_poll (ng : BrightboxNodeGroup) (env : CloudEnv)
    (delta : Int) (t : Nat) (g : ServerGroup)
    (hd : 0 < delta) (hg : env.groupRes t = .ok g)
    (hmax : ¬ ((g.servers.length : Int) + delta > ng.maxSize))
    (hcr : ∀ i < delta.toNat, env.createRes (t + 1 + i) = .ok ()) :
    (increaseSize ng env delta t).1 =
      (waitPoll (sizePollCond ng env ((g.servers.length : Int) + delta))
        pollAttempts (t + 1 + delta.toNat)).1 := by
  unfold increaseSize targetSize
  rw [if_neg (by omega), hg]
  dsimp only
  rw [if_neg hmax, createServers_ok env delta.toNat (t + 1) hcr]

/-- Claim C8: `IncreaseSize` (with a positive in-bounds delta and
successful creates) never returns success unless some polled
provider-reported size reached the desired size (current size plus
delta); if every poll observation stays below the desired size it fails
with the convergence timeout error; and a failing size read during the
poll propagates its error immediately without exhausting the timeout. -/
theorem claim_C8 (ng : BrightboxNodeGroup) (env : CloudEnv) (delta : Int)
    (t : Nat) (g : ServerGroup)
    (hd : 0 < delta) (hg : env.groupRes t = .ok g)
    (hmax : ¬ ((g.servers.length : Int) + delta > ng.maxSize))
    (hcr : ∀ i < delta.toNat, env.createRes (t + 1 + i) = .ok ()) :
    ((increaseSize ng env delta t).1 = .ok () →
      ∃ j, j < pollAttempts ∧ ∃ g', env.groupRes (t + 1 + delta.toNat + j) = .ok g' ∧
        (g.servers.length : Int) + delta ≤ (g'.servers.length : Int)) ∧
    ((∀ i < pollAttempts, ∃ g', env.groupRes (t + 1 + delta.toNat + i) = .ok g' ∧
        (g'.servers.length : Int) < (g.servers.length : Int) + delta) →
      (increaseSize ng env delta t).1 = .error "timed out waiting for the condition") ∧
    (∀ (e : String) (j : Nat), j < pollAttempts →
      env.groupRes (t + 1 + delta.toNat + j) = .error e →
      (∀ i < j, ∃ g', env.groupRes (t + 1 + delta.toNat + i) = .ok g' ∧
        (g'.servers.length : Int) < (g.servers.length : Int) + delta) →
      (increaseSize ng env delta t).1 = .error e) := by
  have hred := increaseSize_poll ng env delta t g hd hg hmax hcr
  refine ⟨fun hok => ?_, fun hbelow => ?_, fun e j hj herr hbelow => ?_⟩
  · rw [hred] at hok
    exact waitPoll_size_ok ng env _ pollAttempts (t + 1 + delta.toNat) hok
  · rw [hred]
    exact waitPoll_size_timeout ng env _ pollAttempts (t + 1 + delta.toNat) hbelow
  · rw [hred]
    exact waitPoll_size_err ng env _ j pollAttempts (t + 1 + delta.toNat) e hj herr hbelow

/-- Claim C8, witness: with size 2, delta 2 (desired 4) and every poll
observation stuck at 2 members, `IncreaseSize` fails with the timeout
error. -/
theorem claim_C8_witness :
    (increaseSize ⟨"grp-sda44", 1, 4, ⟨"img", "auto.w", "typ", "zon", "ud", ["grp-main", "grp-sda44"]⟩⟩
      { groupRes := fun _ => .ok ⟨"grp-sda44", "w.k8s", "1:4", ["srv-1", "srv-2"]⟩,
        serverRes := fun _ _ => .error "not found",
        createRes := fun _ => .ok (),
        destroyRes := fun _ _ => .ok () } 2 0).1 =
      .error "timed out waiting for the condition" :=
  (claim_C8 _ _ 2 0 _ (by decide) rfl (by decide)
      (fun i _ => rfl)).2.1
    (fun i _ => ⟨_, rfl, by decide⟩)

/-- Batch composition: when `DeleteNodes` succeeds on a prefix of the
batch, running it on the whole batch continues with the remaining nodes
from where the prefix left off, with the prefix's calls in front. -/
theorem deleteNodes_append (ng : BrightboxNodeGroup) (env : CloudEnv) :
    ∀ (pre l : List String) (t t' : Nat) (callsPre : List ProviderCall),
      deleteNodes ng env pre t = (.ok (), t', callsPre) →
      deleteNodes ng env (pre ++ l) t =
        ((deleteNodes ng env l t').1, (deleteNodes ng env l t').2.1,
          callsPre ++ (deleteNodes ng env l t').2.2)
  | [], l, t, t', callsPre, h => by
    have h' : ((.ok (), t, []) : Except String Unit × Nat × List ProviderCall) =
        (.ok (), t', callsPre) := h
    obtain ⟨rfl, rfl⟩ : t = t' ∧ ([] : List ProviderCall) = callsPre := by
      simpa using h'
    simp
  | node :: pre, l, t, t', callsPre, h => by
    rw [List.cons_append]
    rcases hcs : currentSize ng env t with ⟨r, t1, c1⟩
    simp only [deleteNodes] at h ⊢
    rw [hcs] at h ⊢
    cases r with
    | error e => simp at h
    | ok size =>
      dsimp only at h ⊢
      by_cases hmin : (size : Int) ≤ ng.minSize
      · rw [if_pos hmin] at h
        simp at h
      · rw [if_neg hmin] at h ⊢
        rcases hds : deleteServerFromGroup ng env node t1 with ⟨r2, t2, c2⟩
        try rw [hds] at h
        try rw [hds]
        cases r2 with
        | error e => simp at h
        | ok u =>
          try dsimp only at h ⊢
          rcases hdn : deleteNodes ng env pre t2 with ⟨r3, t3, c3⟩
          try rw [hdn] at h
          try dsimp only at h
          simp only [Prod.mk.injEq] at h
          obtain ⟨hr3, ht3, hc⟩ := h
          subst ht3
          rw [deleteNodes_append ng env pre l t2 t3 c3 (by rw [hdn, hr3])]
          dsimp only
          rw [← hc]
          simp [List.append_assoc]

/-- A server that is marked deleted or whose group list lacks this
group's id is reported missing by the direct provider lookup. -/
theorem isMissing_true (ng : BrightboxNodeGroup) (env : CloudEnv)
    (node : String) (t : Nat) (srv : Server)
    (hsrv : env.serverRes node t = .ok srv)
    (hmiss : srv.deletedAt.isSome = true ∨ ng.id ∉ srv.serverGroups) :
    isMissing ng env node t = (.ok true, t + 1, [.getServer node]) := by
  by_cases hdel : srv.deletedAt.isSome = true
  · simp [isMissing, hsrv, hdel]
  · rcases hmiss with h | h
    · exact absurd h hdel
    · simp [isMissing, hsrv, hdel, h]

/-- Claim C6: when `DeleteNodes` reaches an instance that is not
presently a member of the target group — the direct provider lookup
reports it deleted or not in this group's list — no destroy call is
issued for that instance: the call fails with the cross-group-membership
error and the remaining batch is aborted (the full trace gains only the
size query and the one lookup). -/
theorem claim_C6 (ng : BrightboxNodeGroup) (env : CloudEnv)
    (pre : List String) (node : String) (rest : List String)
    (t t' : Nat) (callsPre : List ProviderCall) (g : ServerGroup) (srv : Server)
    (hpre : deleteNodes ng env pre t = (.ok (), t', callsPre))
    (hg : env.groupRes t' = .ok g)
    (hsize : ng.minSize < (g.servers.length : Int))
    (hsrv : env.serverRes node (t' + 1) = .ok srv)
    (hmiss : srv.deletedAt.isSome = true ∨ ng.id ∉ srv.serverGroups) :
    deleteNodes ng env (pre ++ node :: rest) t =
      (.error (node ++ " belongs to a different group than " ++ ng.id), t' + 2,
        callsPre ++ [.getGroup ng.id, .getServer node]) ∧
    (ProviderCall.destroyServer node ∉ callsPre →
      ProviderCall.destroyServer node ∉
        (deleteNodes ng env (pre ++ node :: rest) t).2.2) := by
  have hiter : deleteNodes ng env (node :: rest) t' =
      (.error (node ++ " belongs to a different group than " ++ ng.id), t' + 2,
        [.getGroup ng.id, .getServer node]) := by
    have hds : deleteServerFromGroup ng env node (t' + 1) =
        (.error (node ++ " belongs to a different group than " ++ ng.id),
          t' + 2, [.getServer node]) := by
      unfold deleteServerFromGroup
      rw [isMissing_true ng env node (t' + 1) srv hsrv hmiss]
    unfold deleteNodes currentSize targetSize
    rw [hg]
    dsimp only
    rw [if_neg (by omega), hds]
    rfl
  have heq := deleteNodes_append ng env pre (node :: rest) t t' callsPre hpre
  rw [hiter] at heq
  refine ⟨by rw [heq], fun hnot => ?_⟩
  rw [heq]
  simp [hnot]

/-- Claim C7: each `DeleteNodes` iteration re-reads the current size;
when the size is at or below the minimum, the remaining batch is aborted
with the min-size failure before any destroy call in that iteration, and
the destroys already performed earlier in the batch stay in the trace
(they are not undone). -/
theorem claim_C7 (ng : BrightboxNodeGroup) (env : CloudEnv)
    (pre : List String) (node : String) (rest : List String)
    (t t' : Nat) (callsPre : List ProviderCall) (g : ServerGroup)
    (hpre : deleteNodes ng env pre t = (.ok (), t', callsPre))
    (hg : env.groupRes t' = .ok g)
    (hmin : (g.servers.length : Int) ≤ ng.minSize) :
    deleteNodes ng env (pre ++ node :: rest) t =
      (.error "min size reached, no further nodes will be deleted", t' + 1,
        callsPre ++ [.getGroup ng.id]) ∧
    (∀ s, ProviderCall.destroyServer s ∈ callsPre →
      ProviderCall.destroyServer s ∈
        (deleteNodes ng env (pre ++ node :: rest) t).2.2) ∧
    (∀ s, ProviderCall.destroyServer s ∉ callsPre →
      ProviderCall.destroyServer s ∉
        (deleteNodes ng env (pre ++ node :: rest) t).2.2) := by
  have hiter : deleteNodes ng env (node :: rest) t' =
      (.error "min size reached, no further nodes will be deleted", t' + 1,
        [.getGroup ng.id]) := by
    unfold deleteNodes currentSize targetSize
    rw [hg]
    dsimp only
    rw [if_pos hmin]
  have heq := deleteNodes_append ng env pre (node :: rest) t t' callsPre hpre
  rw [hiter] at heq
  refine ⟨by rw [heq], fun s hs => ?_, fun s hs => ?_⟩
  · rw [heq]
    simp [hs]
  · rw [heq]
    simp [hs]

/-- Claim C6, witness: deleting a server that belongs to another group
fails with the cross-group error after one size query and one lookup,
with no destroy call. -/
theorem claim_C6_witness :
    deleteNodes ⟨"grp-sda44", 1, 4, ⟨"img", "auto.w", "typ", "zon", "ud", ["grp-main", "grp-sda44"]⟩⟩
      { groupRes := fun _ => .ok ⟨"grp-sda44", "w.k8s", "1:4", ["srv-1", "srv-2"]⟩,
        serverRes := fun _ _ => .ok ⟨"srv-f", "active", none, ["grp-other"],
          ⟨"img", "available"⟩, ⟨"typ", "available"⟩, ⟨"zon"⟩⟩,
        createRes := fun _ => .ok (), destroyRes := fun _ _ => .ok () }
      ["srv-f"] 0 =
      (.error "srv-f belongs to a different group than grp-sda44", 2,
        [.getGroup "grp-sda44", .getServer "srv-f"]) :=
  (claim_C6 _ _ [] "srv-f" [] 0 0 [] _ _ rfl rfl (by decide) rfl
    (Or.inr (by decide))).1

/-- Claim C7, witness: after one successful deletion shrinks the group
to its minimum, the next iteration aborts with the min-size error before
any further destroy; the earlier destroy stays in the trace. -/
theorem claim_C7_witness :
    deleteNodes ⟨"grp-sda44", 1, 4, ⟨"img", "auto.w", "typ", "zon", "ud", ["grp-main", "grp-sda44"]⟩⟩
      { groupRes := fun u => if u = 0 then .ok ⟨"grp-sda44", "w.k8s", "1:4", ["srv-a", "srv-b"]⟩
          else .ok ⟨"grp-sda44", "w.k8s", "1:4", ["srv-b"]⟩,
        serverRes := fun sid u =>
          if sid = "srv-a" then
            (if u ≤ 1 then .ok ⟨"srv-a", "active", none, ["grp-sda44"],
                ⟨"img", "available"⟩, ⟨"typ", "available"⟩, ⟨"zon"⟩⟩
             else .ok ⟨"srv-a", "deleting", some (), ["grp-sda44"],
                ⟨"img", "available"⟩, ⟨"typ", "available"⟩, ⟨"zon"⟩⟩)
          else .error "not found",
        createRes := fun _ => .ok (), destroyRes := fun _ _ => .ok () }
      ["srv-a", "srv-b"] 0 =
      (.error "min size reached, no further nodes will be deleted", 5,
        [.getGroup "grp-sda44", .getServer "srv-a", .destroyServer "srv-a",
         .getServer "srv-a", .getGroup "grp-sda44"]) :=
  (claim_C7
    ⟨"grp-sda44", 1, 4, ⟨"img", "auto.w", "typ", "zon", "ud", ["grp-main", "grp-sda44"]⟩⟩
    { groupRes := fun u => if u = 0 then .ok ⟨"grp-sda44", "w.k8s", "1:4", ["srv-a", "srv-b"]⟩
        else .ok ⟨"grp-sda44", "w.k8s", "1:4", ["srv-b"]⟩,
      serverRes := fun sid u =>
        if sid = "srv-a" then
          (if u ≤ 1 then .ok ⟨"srv-a", "active", none, ["grp-sda44"],
              ⟨"img", "available"⟩, ⟨"typ", "available"⟩, ⟨"zon"⟩⟩
           else .ok ⟨"srv-a", "deleting", some (), ["grp-sda44"],
              ⟨"img", "available"⟩, ⟨"typ", "available"⟩, ⟨"zon"⟩⟩)
        else .error "not found",
      createRes := fun _ => .ok (), destroyRes := fun _ _ => .ok () }
    ["srv-a"] "srv-b" [] 0 4
    [.getGroup "grp-sda44", .getServer "srv-a", .destroyServer "srv-a",
     .getServer "srv-a"] _ rfl rfl (by decide)).1

end Brightbox

